import Mathlib

/-!
Verification of the thermal-comfort controller (`PROYECTO_FINAL.ino`).

The development shallowly embeds the core of the sketch: the PMV comfort
index calculator (`calcularPMV`), the hysteresis band machine inside
`setActuador`, the servo anti-chatter logic (`actualizarServo`), the
high-PMV alarm machine (`checkAlarm` and the dismiss branch of `loop`),
the low-PMV indicator (`checkPmvBajo`), the lockout machine
(`bloqueoSistema` / `verificarDesbloqueo`) and the key handling of the
session state machine in `loop`.

Modelling conventions:
* `float` values (PMV, temperatures, humidity) are embedded as `ℚ`;
  the arithmetic of the sketch on the inputs used here is exact.
* `millis()` readings are `Nat` values of the 32-bit counter; arithmetic
  that C performs on `unsigned long` is taken modulo `U32 = 2 ^ 32`
  (`usub` is the wrapping subtraction `a - b` of C, `(now + 60000) % U32`
  the wrapping addition from the alarm dismiss branch).
* Hardware side effects (LCD, buzzer, LED, physical servo write) are
  dropped; the state each function mutates is made explicit as a
  structure that the embedded function consumes and returns.
-/

/-- `unsigned long` modulus on the Arduino target: 2 ^ 32. -/
def U32 : Nat := 4294967296

/-- C unsigned subtraction `a - b` on `unsigned long` values. -/
def usub (a b : Nat) : Nat := (a + (U32 - b % U32)) % U32

/-- Arduino `constrain(x, lo, hi)`: `x < lo ? lo : (x > hi ? hi : x)`. -/
def constrain (x lo hi : ℚ) : ℚ := if x < lo then lo else if x > hi then hi else x

/-- `enum EstadoPMV { PMV_MUY_BAJO, PMV_BAJO, PMV_CONFORT, PMV_CALOR, PMV_MUY_CALOR }`. -/
inductive EstadoPMV
  | PMV_MUY_BAJO
  | PMV_BAJO
  | PMV_CONFORT
  | PMV_CALOR
  | PMV_MUY_CALOR
deriving DecidableEq

/-- `enum Estado { MENU, LOGIN, CONFORT }`. -/
inductive Estado
  | MENU
  | LOGIN
  | CONFORT
deriving DecidableEq

/-- `const float PMV_ALARM_THRESHOLD = 0.7`. -/
def PMV_ALARM_THRESHOLD : ℚ := 0.7

/-- `const float PMV_BAJO_THRESHOLD = -0.7`. -/
def PMV_BAJO_THRESHOLD : ℚ := -0.7

/-- `const unsigned long DURACION_BLOQUEO = 15000`. -/
def DURACION_BLOQUEO : Nat := 15000

/-- `const unsigned long SERVO_DELAY = 3000`. -/
def SERVO_DELAY : Nat := 3000

/-- `const unsigned long alarmInterval = 500`. -/
def alarmInterval : Nat := 500

/-- `const unsigned long pmvBajoOnTime = 100`. -/
def pmvBajoOnTime : Nat := 100

/-- `const unsigned long pmvBajoOffTime = 400`. -/
def pmvBajoOffTime : Nat := 400

/-- `float tProm = (tDHT + tAnalog) / 2.0;` from `calcularPMV`. -/
def tProm (tDHT tAnalog : ℚ) : ℚ := (tDHT + tAnalog) / 2

/-- The humidity factor branch of `calcularPMV`. -/
def factorHumedad (h : ℚ) : ℚ :=
  if h < 40 then (40 - h) / 40 * (-0.2)
  else if h > 60 then (h - 60) / 40 * 0.3
  else 0

/-- The light factor of `calcularPMV`, `constrain`-ed to `[-0.15, 0.15]`. -/
def factorLuz (luz : Int) : ℚ :=
  constrain (((luz : ℚ) - 300) / 700 * 0.15) (-0.15) 0.15

/-- `calcularPMV(tDHT, tAnalog, h, luz)`: temperature deviation from 23 °C
weighted by 0.25 plus humidity and light factors, clamped to `[-2, 2]`. -/
def calcularPMV (tDHT tAnalog h : ℚ) (luz : Int) : ℚ :=
  constrain ((tProm tDHT tAnalog - 23) * 0.25 + factorHumedad h + factorLuz luz) (-2) 2

/-- The band-update prefix of `setActuador`: starting from
`nuevoEstado = estadoPMVActual`, the first matching branch of the
`if`/`else if` chain assigns the new band (first match wins); the two
sticky branches keep `PMV_MUY_CALOR` when `pmv >= 0.6` and
`PMV_MUY_BAJO` when `pmv <= -0.6`. -/
def setActuadorBand (pmvVal : ℚ) (estadoPMVActual : EstadoPMV) : EstadoPMV :=
  if pmvVal > 0.8 then EstadoPMV.PMV_MUY_CALOR
  else if pmvVal > 0.4 then
    (if estadoPMVActual ≠ EstadoPMV.PMV_MUY_CALOR ∨ pmvVal < 0.6 then EstadoPMV.PMV_CALOR
     else estadoPMVActual)
  else if pmvVal ≥ -0.4 ∧ pmvVal ≤ 0.4 then EstadoPMV.PMV_CONFORT
  else if pmvVal < 0.3 ∧ pmvVal ≥ -0.8 then
    (if estadoPMVActual ≠ EstadoPMV.PMV_MUY_BAJO ∨ pmvVal > -0.6 then EstadoPMV.PMV_BAJO
     else estadoPMVActual)
  else if pmvVal < -0.8 then EstadoPMV.PMV_MUY_BAJO
  else estadoPMVActual

/-- The relay command of the `switch` in `setActuador`:
`digitalWrite(RELAY_PIN, HIGH)` on the two hot bands, `LOW` otherwise. -/
def setActuadorRelay : EstadoPMV → Bool
  | EstadoPMV.PMV_MUY_CALOR => true
  | EstadoPMV.PMV_CALOR => true
  | _ => false

/-- The servo angle passed to `actualizarServo` by the `switch` in
`setActuador` for each band. -/
def setActuadorServoTarget : EstadoPMV → Int
  | EstadoPMV.PMV_MUY_CALOR => 0
  | EstadoPMV.PMV_CALOR => 45
  | EstadoPMV.PMV_CONFORT => 90
  | EstadoPMV.PMV_BAJO => 135
  | EstadoPMV.PMV_MUY_BAJO => 180

/-- The mutable globals of the alarm subsystem:
`alarmActive`, `alarmSilenced`, `alarmSilenceUntil`, `alarmToggleState`,
`lastAlarmToggle`. -/
structure AlarmState where
  alarmActive : Bool
  alarmSilenced : Bool
  alarmSilenceUntil : Nat
  alarmToggleState : Bool
  lastAlarmToggle : Nat
deriving DecidableEq

/-- `triggerAlarm()` without its LCD/LED/buzzer writes. -/
def triggerAlarm (now : Nat) (s : AlarmState) : AlarmState :=
  { s with alarmActive := true, alarmToggleState := false, lastAlarmToggle := now }

/-- `stopAlarm()` without its LCD/LED/buzzer writes. -/
def stopAlarm (s : AlarmState) : AlarmState :=
  { s with alarmActive := false, alarmToggleState := false }

/-- `checkAlarm(pmvVal)`: early-return while silenced and
`millis() < alarmSilenceUntil` (a direct comparison of absolute
timestamps); otherwise clear the silence flag and drive `alarmActive`
from the `PMV_ALARM_THRESHOLD` comparison. -/
def checkAlarm (pmvVal : ℚ) (now : Nat) (s : AlarmState) : AlarmState :=
  if s.alarmSilenced ∧ now < s.alarmSilenceUntil then s
  else
    if pmvVal > PMV_ALARM_THRESHOLD then
      (if ¬ s.alarmActive then triggerAlarm now { s with alarmSilenced := false }
       else { s with alarmSilenced := false })
    else
      (if s.alarmActive then stopAlarm { s with alarmSilenced := false }
       else { s with alarmSilenced := false })

/-- The `'*'` dismiss branch of `loop`'s alarm handling:
`stopAlarm(); alarmSilenced = true; alarmSilenceUntil = millis() + 60000;`
with the C `unsigned long` addition wrapping modulo `U32`. -/
def dismissAlarm (now : Nat) (s : AlarmState) : AlarmState :=
  { stopAlarm s with alarmSilenced := true, alarmSilenceUntil := (now + 60000) % U32 }

/-- `alarmHandler()` restricted to its state change: toggle the blink
phase when `millis() - lastAlarmToggle >= alarmInterval`. -/
def alarmHandler (now : Nat) (s : AlarmState) : AlarmState :=
  if alarmInterval ≤ usub now s.lastAlarmToggle then
    { s with lastAlarmToggle := now, alarmToggleState := !s.alarmToggleState }
  else s

/-- The mutable globals of the low-PMV indicator:
`pmvBajoActive`, `pmvBajoToggleState`, `lastPmvBajoToggle`. -/
structure PmvBajoState where
  pmvBajoActive : Bool
  pmvBajoToggleState : Bool
  lastPmvBajoToggle : Nat
deriving DecidableEq

/-- `triggerPmvBajo()` without its LED/serial writes. -/
def triggerPmvBajo (now : Nat) (p : PmvBajoState) : PmvBajoState :=
  { p with pmvBajoActive := true, pmvBajoToggleState := true, lastPmvBajoToggle := now }

/-- `stopPmvBajo()` without its serial write. -/
def stopPmvBajo (p : PmvBajoState) : PmvBajoState :=
  { p with pmvBajoActive := false, pmvBajoToggleState := false }

/-- `checkPmvBajo(pmvVal)`: drive `pmvBajoActive` from the
`PMV_BAJO_THRESHOLD` comparison. -/
def checkPmvBajo (pmvVal : ℚ) (now : Nat) (p : PmvBajoState) : PmvBajoState :=
  if pmvVal < PMV_BAJO_THRESHOLD then
    (if ¬ p.pmvBajoActive then triggerPmvBajo now p else p)
  else
    (if p.pmvBajoActive then stopPmvBajo p else p)

/-- `pmvBajoHandler()` restricted to its state change: toggle the blink
phase after `pmvBajoOnTime` in the on phase and `pmvBajoOffTime` in the
off phase. -/
def pmvBajoHandler (now : Nat) (p : PmvBajoState) : PmvBajoState :=
  if (if p.pmvBajoToggleState then pmvBajoOnTime else pmvBajoOffTime) ≤
      usub now p.lastPmvBajoToggle then
    { p with lastPmvBajoToggle := now, pmvBajoToggleState := !p.pmvBajoToggleState }
  else p

/-- The servo globals `servoAnguloActual`, `servoAnguloDeseado`,
`ultimoCambioServo`. -/
structure ServoState where
  servoAnguloActual : Int
  servoAnguloDeseado : Int
  ultimoCambioServo : Nat
deriving DecidableEq

/-- `actualizarServo(anguloDeseado)`: record the desired angle
immediately; physically move (`servo.write`) only when the actual angle
differs from the desired one and `millis() - ultimoCambioServo >=
SERVO_DELAY`. -/
def actualizarServo (anguloDeseado : Int) (now : Nat) (s : ServoState) : ServoState :=
  let s1 := if anguloDeseado ≠ s.servoAnguloDeseado
    then { s with servoAnguloDeseado := anguloDeseado } else s
  if s1.servoAnguloActual ≠ s1.servoAnguloDeseado ∧
      SERVO_DELAY ≤ usub now s1.ultimoCambioServo then
    { s1 with servoAnguloActual := s1.servoAnguloDeseado, ultimoCambioServo := now }
  else s1

/-- The session and lockout globals: `intentosFallidos`,
`sistemaBloqueado`, `tiempoBloqueo`, `estado`, and `usuarioActivo`
(a user index in place of the C pointer, `none` for `nullptr`). -/
structure SysState where
  intentosFallidos : Nat
  sistemaBloqueado : Bool
  tiempoBloqueo : Nat
  estado : Estado
  usuarioActivo : Option Nat
deriving DecidableEq

/-- `bloqueoSistema()` without its LCD/LED/buzzer writes: lock, record
the lock start tick, reset the failed-attempt counter. -/
def bloqueoSistema (now : Nat) (s : SysState) : SysState :=
  { s with sistemaBloqueado := true, tiempoBloqueo := now, intentosFallidos := 0 }

/-- The wrong-PIN branch of `loop`'s `LOGIN` case:
`intentosFallidos++; if (intentosFallidos >= 3) bloqueoSistema();
estado = MENU;`. -/
def loginClaveErronea (s : SysState) (now : Nat) : SysState :=
  let s1 := { s with intentosFallidos := s.intentosFallidos + 1 }
  let s2 := if s1.intentosFallidos ≥ 3 then bloqueoSistema now s1 else s1
  { s2 with estado := Estado.MENU }

/-- Three consecutive wrong-PIN verifications at ticks `t1`, `t2`, `t3`. -/
def tresErrores (s : SysState) (t1 t2 t3 : Nat) : SysState :=
  loginClaveErronea (loginClaveErronea (loginClaveErronea s t1) t2) t3

/-- The correct-PIN branch of `loop`'s `LOGIN` case for user index `i`:
`intentosFallidos = 0; ... estado = CONFORT;` with `usuarioActivo` set. -/
def loginAccesoOk (s : SysState) (i : Nat) : SysState :=
  { s with intentosFallidos := 0, estado := Estado.CONFORT, usuarioActivo := some i }

/-- `verificarDesbloqueo()`: when locked and `millis() - tiempoBloqueo >=
DURACION_BLOQUEO`, unlock, return to the menu and clear the active user;
otherwise only blink feedback happens and the state is unchanged. -/
def verificarDesbloqueo (s : SysState) (now : Nat) : SysState :=
  if s.sistemaBloqueado then
    (if DURACION_BLOQUEO ≤ usub now s.tiempoBloqueo then
      { s with sistemaBloqueado := false, estado := Estado.MENU, usuarioActivo := none }
    else s)
  else s

/-- The key handling of `loop`'s `MENU` case: `'1'` switches to `LOGIN`
(`'2'` starts the registration flow, driven by external RFID input and
not modelled; other keys are ignored). No branch consults
`sistemaBloqueado`. -/
def menuKeyStep (s : SysState) (key : Option Char) : SysState :=
  if key = some '1' then { s with estado := Estado.LOGIN } else s

/-- One `loop` iteration as far as the lockout and the `MENU` case are
concerned: `verificarDesbloqueo()` first, then the `switch` dispatches on
`estado` and the `MENU` case handles the pressed key. -/
def tickMenu (s : SysState) (now : Nat) (key : Option Char) : SysState :=
  match verificarDesbloqueo s now with
  | s1 => if s1.estado = Estado.MENU then menuKeyStep s1 key else s1

/-- A locked system state: lock started at tick 0, session at the menu. -/
def sBloqueadoEx : SysState :=
  { intentosFallidos := 0, sistemaBloqueado := true, tiempoBloqueo := 0,
    estado := Estado.MENU, usuarioActivo := none }

/-- An alarm state with the alarm ringing since tick 0. -/
def alarmActiveEx : AlarmState :=
  { alarmActive := true, alarmSilenced := false, alarmSilenceUntil := 0,
    alarmToggleState := false, lastAlarmToggle := 0 }

/-- Claim C1: with the band at `PMV_MUY_CALOR`, every `pmv ≥ 0.6` keeps the
band at `PMV_MUY_CALOR`; the band leaves `PMV_MUY_CALOR` only when
`pmv < 0.6`; symmetrically, with the band at `PMV_MUY_BAJO`, every
`pmv ≤ -0.6` keeps the band at `PMV_MUY_BAJO`. -/
theorem hysteresis_no_chatter :
    (∀ pmv : ℚ, 0.6 ≤ pmv →
      setActuadorBand pmv EstadoPMV.PMV_MUY_CALOR = EstadoPMV.PMV_MUY_CALOR) ∧
    (∀ pmv : ℚ,
      setActuadorBand pmv EstadoPMV.PMV_MUY_CALOR ≠ EstadoPMV.PMV_MUY_CALOR → pmv < 0.6) ∧
    (∀ pmv : ℚ, pmv ≤ -0.6 →
      setActuadorBand pmv EstadoPMV.PMV_MUY_BAJO = EstadoPMV.PMV_MUY_BAJO) := by
  refine ⟨fun pmv h => ?_, fun pmv h => ?_, fun pmv h => ?_⟩
  · unfold setActuadorBand
    split_ifs with h1 h2 h3 h4 h5 h6 h7 <;> first
      | rfl
      | (exfalso; simp only [ne_eq, not_or, not_lt, not_and, not_le] at *; norm_num at *; linarith)
  · by_contra hge
    push_neg at hge
    apply h
    unfold setActuadorBand
    split_ifs with h1 h2 h3 h4 h5 h6 h7 <;> first
      | rfl
      | (exfalso; simp only [ne_eq, not_or, not_lt, not_and, not_le] at *; norm_num at *; linarith)
  · unfold setActuadorBand
    split_ifs with h1 h2 h3 h4 h5 h6 h7 <;> first
      | rfl
      | (exfalso; simp only [ne_eq, not_or, not_lt, not_and, not_le] at *; norm_num at *; linarith)

/-- The oscillation values of the claim satisfy its hypotheses. -/
theorem hysteresis_no_chatter_witness :
    setActuadorBand 0.65 EstadoPMV.PMV_MUY_CALOR = EstadoPMV.PMV_MUY_CALOR ∧
    setActuadorBand 0.75 EstadoPMV.PMV_MUY_CALOR = EstadoPMV.PMV_MUY_CALOR ∧
    setActuadorBand (-0.65) EstadoPMV.PMV_MUY_BAJO = EstadoPMV.PMV_MUY_BAJO :=
  ⟨hysteresis_no_chatter.1 0.65 (by norm_num),
   hysteresis_no_chatter.1 0.75 (by norm_num),
   hysteresis_no_chatter.2.2 (-0.65) (by norm_num)⟩

/-- Claim C7: for every previous band, a `pmv` in the overlap region
`[0.3, 0.4]` (in particular `0.35`) yields `PMV_CONFORT`: the hot and
very-hot branches fail, and the first-match-wins chain hits the
`PMV_CONFORT` branch before the low branch is consulted. -/
theorem band_overlap_neutral (prev : EstadoPMV) (pmv : ℚ)
    (hlo : 0.3 ≤ pmv) (hhi : pmv ≤ 0.4) :
    setActuadorBand pmv prev = EstadoPMV.PMV_CONFORT := by
  unfold setActuadorBand
  rw [if_neg (by norm_num at *; linarith), if_neg (by norm_num at *; linarith),
    if_pos ⟨by norm_num at *; linarith, hhi⟩]

/-- `pmv = 0.35` from band `PMV_MUY_CALOR` resolves to `PMV_CONFORT`. -/
theorem band_overlap_neutral_witness :
    setActuadorBand 0.35 EstadoPMV.PMV_MUY_CALOR = EstadoPMV.PMV_CONFORT :=
  band_overlap_neutral EstadoPMV.PMV_MUY_CALOR 0.35 (by norm_num) (by norm_num)

/-- `constrain` is monotone in its first argument when the clamp interval
is non-degenerate. -/
theorem constrain_mono {x y lo hi : ℚ} (hlohi : lo ≤ hi) (hxy : x ≤ y) :
    constrain x lo hi ≤ constrain y lo hi := by
  unfold constrain
  split_ifs <;> linarith

/-- Claim C5: the end-to-end scenario `tDHT = 30`, `tAnalog = 28`,
`h = 50`, `luz = 300` gives average temperature 29, humidity factor 0,
light factor 0 and index exactly `1.5` (inside the `[-2, 2]` clamp), and
feeding `1.5` to the band machine from any previous band gives
`PMV_MUY_CALOR`, whose actuator mapping is relay on and servo target 0°. -/
theorem end_to_end_scenario :
    tProm 30 28 = 29 ∧ factorHumedad 50 = 0 ∧ factorLuz 300 = 0 ∧
    calcularPMV 30 28 50 300 = 1.5 ∧
    (∀ prev : EstadoPMV, setActuadorBand 1.5 prev = EstadoPMV.PMV_MUY_CALOR) ∧
    setActuadorRelay EstadoPMV.PMV_MUY_CALOR = true ∧
    setActuadorServoTarget EstadoPMV.PMV_MUY_CALOR = 0 := by
  refine ⟨by norm_num [tProm], by norm_num [factorHumedad], by norm_num [factorLuz, constrain],
    by norm_num [calcularPMV, tProm, factorHumedad, factorLuz, constrain], ?_, rfl, rfl⟩
  intro prev
  unfold setActuadorBand
  rw [if_pos (by norm_num)]

/-- Claim C8: raising `tDHT` (the primary temperature) while holding the
other inputs fixed never decreases `calcularPMV`, the clamp included. -/
theorem pmv_monotone_primaryTemp (t1 t1' t2 h : ℚ) (luz : Int)
    (hle : t1 ≤ t1') :
    calcularPMV t1 t2 h luz ≤ calcularPMV t1' t2 h luz := by
  unfold calcularPMV
  refine constrain_mono (by norm_num) ?_
  have hprom : tProm t1 t2 ≤ tProm t1' t2 := by
    unfold tProm
    linarith
  nlinarith [hprom]

/-- Monotonicity instantiated at primary temperatures 30 and 31. -/
theorem pmv_monotone_primaryTemp_witness :
    calcularPMV 30 28 50 300 ≤ calcularPMV 31 28 50 300 :=
  pmv_monotone_primaryTemp 30 31 28 50 300 (by norm_num)

/-- `usub` agrees with ordinary subtraction when no wraparound occurs. -/
theorem usub_sub (a b : Nat) (h1 : b ≤ a) (h2 : a - b < U32) : usub a b = a - b := by
  unfold usub U32 at *
  omega

/-- `usub` of the 32-bit projections of two monotone tick readings
recovers the true elapsed time while it stays below `U32`. -/
theorem usub_wrap (a b : Nat) (h1 : b ≤ a) (h2 : a - b < U32) :
    usub (a % U32) (b % U32) = a - b := by
  unfold usub U32 at *
  omega

/-- Claim C2: from an unlocked state with a zeroed failure counter, the
first two wrong PINs leave the system unlocked and the third locks it,
resets the counter to 0 and records the lock start tick `t3`; while
locked, `verificarDesbloqueo` changes nothing as long as less than
`DURACION_BLOQUEO` (15 s) has elapsed since `t3`, and at the first check
at or after `t3 + 15000` it unlocks, returns the session to the menu and
clears the active user. -/
theorem lockout_lifecycle (s : SysState) (t1 t2 t3 : Nat)
    (h0 : s.intentosFallidos = 0) (hu : s.sistemaBloqueado = false) :
    (loginClaveErronea s t1).sistemaBloqueado = false ∧
    (loginClaveErronea (loginClaveErronea s t1) t2).sistemaBloqueado = false ∧
    tresErrores s t1 t2 t3 =
      { s with
        intentosFallidos := 0, sistemaBloqueado := true,
        tiempoBloqueo := t3, estado := Estado.MENU } ∧
    (∀ now : Nat, t3 ≤ now → now - t3 < DURACION_BLOQUEO →
      verificarDesbloqueo (tresErrores s t1 t2 t3) now = tresErrores s t1 t2 t3) ∧
    (∀ now : Nat, t3 ≤ now → DURACION_BLOQUEO ≤ now - t3 → now - t3 < U32 →
      (verificarDesbloqueo (tresErrores s t1 t2 t3) now).sistemaBloqueado = false ∧
      (verificarDesbloqueo (tresErrores s t1 t2 t3) now).estado = Estado.MENU ∧
      (verificarDesbloqueo (tresErrores s t1 t2 t3) now).usuarioActivo = none) := by
  obtain ⟨i, b, tb, e, u⟩ := s
  have hi : i = 0 := h0
  have hb : b = false := hu
  subst hi hb
  have e3 : tresErrores ⟨0, false, tb, e, u⟩ t1 t2 t3 =
      ⟨0, true, t3, Estado.MENU, u⟩ := rfl
  refine ⟨rfl, rfl, e3, ?_, ?_⟩
  · intro now hle hlt
    have hltU : now - t3 < U32 := lt_trans hlt (by norm_num [DURACION_BLOQUEO, U32])
    have he : usub now t3 = now - t3 := usub_sub now t3 hle hltU
    rw [e3]
    simp [verificarDesbloqueo, he, not_le.mpr hlt]
  · intro now hle hge hltU
    have he : usub now t3 = now - t3 := usub_sub now t3 hle hltU
    rw [e3]
    refine ⟨?_, ?_, ?_⟩ <;> simp [verificarDesbloqueo, he, hge]

/-- The lockout lifecycle at lock ticks 10, 20, 30, checked 1 s into the
lock and at 15 s after it. -/
theorem lockout_lifecycle_witness :
    tresErrores ⟨0, false, 0, Estado.MENU, none⟩ 10 20 30 =
      ⟨0, true, 30, Estado.MENU, none⟩ ∧
    verificarDesbloqueo (tresErrores ⟨0, false, 0, Estado.MENU, none⟩ 10 20 30) 1030 =
      tresErrores ⟨0, false, 0, Estado.MENU, none⟩ 10 20 30 ∧
    (verificarDesbloqueo (tresErrores ⟨0, false, 0, Estado.MENU, none⟩ 10 20 30)
      15030).sistemaBloqueado = false ∧
    (verificarDesbloqueo (tresErrores ⟨0, false, 0, Estado.MENU, none⟩ 10 20 30)
      15030).usuarioActivo = none :=
  have h := lockout_lifecycle ⟨0, false, 0, Estado.MENU, none⟩ 10 20 30 rfl rfl
  ⟨h.2.2.1,
   h.2.2.2.1 1030 (by decide) (by decide),
   (h.2.2.2.2 15030 (by decide) (by decide) (by decide)).1,
   (h.2.2.2.2 15030 (by decide) (by decide) (by decide)).2.2⟩

/-- Claim C3 is violated by the code: nothing in `loop`'s `MENU` or
`LOGIN` cases consults `sistemaBloqueado`, so with the system locked at
tick 0 and still inside the 15 s lockout at tick 1000, key `'1'` moves
the session to `LOGIN`, and a subsequent correct tag and PIN reach
`CONFORT` — all while the lockout is still active. -/
theorem lockout_preemption_violated :
    (tickMenu sBloqueadoEx 1000 (some '1')).sistemaBloqueado = true ∧
    (tickMenu sBloqueadoEx 1000 (some '1')).estado = Estado.LOGIN ∧
    (loginAccesoOk (tickMenu sBloqueadoEx 1000 (some '1')) 0).estado = Estado.CONFORT ∧
    (loginAccesoOk (tickMenu sBloqueadoEx 1000 (some '1')) 0).sistemaBloqueado = true := by
  decide

/-- Claim C4: dismissing the ringing alarm at tick `T` stops it and
silences it; every `checkAlarm` at a tick strictly before `T + 60000`
returns the state unchanged — no re-activation however high the PMV —
and at any tick at or after `T + 60000` a PMV above the threshold
re-activates the alarm. `T + 60000 < U32` keeps the silence window clear
of counter wraparound (see the wraparound analysis of claim C9). -/
theorem alarm_silence_window (s : AlarmState) (T : Nat)
    (hact : s.alarmActive = true) (hT : T + 60000 < U32) :
    (dismissAlarm T s).alarmActive = false ∧
    (dismissAlarm T s).alarmSilenced = true ∧
    (∀ (pmv : ℚ) (now : Nat), now < T + 60000 →
      checkAlarm pmv now (dismissAlarm T s) = dismissAlarm T s) ∧
    (∀ (pmv : ℚ) (now : Nat), T + 60000 ≤ now → PMV_ALARM_THRESHOLD < pmv →
      (checkAlarm pmv now (dismissAlarm T s)).alarmActive = true) := by
  obtain ⟨a, si, u, t, l⟩ := s
  have huntil : (T + 60000) % U32 = T + 60000 := Nat.mod_eq_of_lt hT
  refine ⟨rfl, rfl, ?_, ?_⟩
  · intro pmv now hnow
    unfold checkAlarm
    rw [if_pos ⟨rfl, by simp [dismissAlarm, stopAlarm, huntil]; exact hnow⟩]
  · intro pmv now hnow hpmv
    unfold checkAlarm
    rw [if_neg]
    · simp [dismissAlarm, stopAlarm, triggerAlarm, hpmv]
    · simp [dismissAlarm, stopAlarm, huntil]
      omega

/-- The silence window exercised concretely: dismiss at tick 100, check
at tick 50000 (inside the window, state unchanged) and at tick 60200
(window over, alarm re-activates). -/
theorem alarm_silence_window_witness :
    checkAlarm 0.75 50000 (dismissAlarm 100 ⟨true, false, 0, false, 0⟩) =
      dismissAlarm 100 ⟨true, false, 0, false, 0⟩ ∧
    (checkAlarm 0.75 60200 (dismissAlarm 100 ⟨true, false, 0, false, 0⟩)).alarmActive = true :=
  have h := alarm_silence_window ⟨true, false, 0, false, 0⟩ 100 rfl (by norm_num [U32])
  ⟨h.2.2.1 0.75 50000 (by norm_num),
   h.2.2.2 0.75 60200 (by norm_num) (by norm_num [PMV_ALARM_THRESHOLD])⟩

/-- `actualizarServo` moves when the requested angle differs from the
actual one and the cooldown has elapsed. -/
theorem actualizarServo_move (a : Int) (now : Nat) (s : ServoState)
    (hne : a ≠ s.servoAnguloActual) (hcd : SERVO_DELAY ≤ usub now s.ultimoCambioServo) :
    actualizarServo a now s = ⟨a, a, now⟩ := by
  obtain ⟨act, des, ult⟩ := s
  simp only at hne hcd
  unfold actualizarServo
  by_cases hda : a = des
  · subst hda
    simp [Ne.symm hne, hcd]
  · simp [hda, Ne.symm hne, hcd]

/-- `actualizarServo` inside the cooldown window only records the
desired angle. -/
theorem actualizarServo_hold (a : Int) (now : Nat) (s : ServoState)
    (hcd : usub now s.ultimoCambioServo < SERVO_DELAY) :
    actualizarServo a now s = { s with servoAnguloDeseado := a } := by
  obtain ⟨act, des, ult⟩ := s
  simp only at hcd
  unfold actualizarServo
  by_cases hda : a = des <;> simp [hda, not_le.mpr hcd]

/-- `actualizarServo` leaves the physical angle and the move timestamp
alone when the requested angle equals the actual one or the cooldown has
not elapsed. -/
theorem actualizarServo_no_move (a : Int) (now : Nat) (s : ServoState)
    (h : a = s.servoAnguloActual ∨ usub now s.ultimoCambioServo < SERVO_DELAY) :
    (actualizarServo a now s).servoAnguloActual = s.servoAnguloActual ∧
    (actualizarServo a now s).ultimoCambioServo = s.ultimoCambioServo := by
  obtain ⟨act, des, ult⟩ := s
  simp only at h
  unfold actualizarServo
  by_cases hda : a = des
  · subst hda
    rcases h with h | h
    · simp [h]
    · simp [not_le.mpr h]
  · rcases h with h | h
    · subst h
      simp [hda]
    · simp [hda, not_le.mpr h]

/-- `actualizarServo` always records its argument as the desired angle. -/
theorem actualizarServo_deseado (a : Int) (now : Nat) (s : ServoState) :
    (actualizarServo a now s).servoAnguloDeseado = a := by
  obtain ⟨act, des, ult⟩ := s
  unfold actualizarServo
  by_cases hda : a = des
  · subst hda
    simp [apply_ite ServoState.servoAnguloDeseado]
  · simp [hda, apply_ite ServoState.servoAnguloDeseado]

/-- Claim C6: the desired angle is always recorded immediately; the
actual angle changes only when it differs from the requested angle and
the 3 s cooldown since the last physical move has elapsed; and in the
two-changes-in-one-window scenario (move to `a` at `t1`, request `b`
within the cooldown at `t2`, call again at `t3` after the cooldown) only
one physical move happens inside the window and `b` is applied only at
`t3`. -/
theorem servo_anti_chatter :
    (∀ (a : Int) (now : Nat) (s : ServoState),
      (actualizarServo a now s).servoAnguloDeseado = a) ∧
    (∀ (a : Int) (now : Nat) (s : ServoState),
      (actualizarServo a now s).servoAnguloActual ≠ s.servoAnguloActual →
        a ≠ s.servoAnguloActual ∧ SERVO_DELAY ≤ usub now s.ultimoCambioServo ∧
        (actualizarServo a now s).servoAnguloActual = a ∧
        (actualizarServo a now s).ultimoCambioServo = now) ∧
    (∀ (a b : Int) (t1 t2 t3 : Nat) (s : ServoState),
      a ≠ s.servoAnguloActual → SERVO_DELAY ≤ usub t1 s.ultimoCambioServo →
      b ≠ a → usub t2 t1 < SERVO_DELAY → SERVO_DELAY ≤ usub t3 t1 →
        actualizarServo a t1 s = ⟨a, a, t1⟩ ∧
        actualizarServo b t2 (actualizarServo a t1 s) = ⟨a, b, t1⟩ ∧
        actualizarServo b t3 (actualizarServo b t2 (actualizarServo a t1 s)) = ⟨b, b, t3⟩) := by
  refine ⟨actualizarServo_deseado, ?_, ?_⟩
  · intro a now s hch
    by_cases hne : a = s.servoAnguloActual
    · exact absurd (actualizarServo_no_move a now s (Or.inl hne)).1 hch
    · by_cases hcd : SERVO_DELAY ≤ usub now s.ultimoCambioServo
      · have hm := actualizarServo_move a now s hne hcd
        rw [hm]
        exact ⟨hne, hcd, rfl, rfl⟩
      · exact absurd (actualizarServo_no_move a now s (Or.inr (not_le.mp hcd))).1 hch
  · intro a b t1 t2 t3 s hne hcd1 hba hcd2 hcd3
    have h1 : actualizarServo a t1 s = ⟨a, a, t1⟩ := actualizarServo_move a t1 s hne hcd1
    have h2 : actualizarServo b t2 (⟨a, a, t1⟩ : ServoState) = ⟨a, b, t1⟩ := by
      have := actualizarServo_hold b t2 (⟨a, a, t1⟩ : ServoState) (by simpa using hcd2)
      simpa using this
    have h3 : actualizarServo b t3 (⟨a, b, t1⟩ : ServoState) = ⟨b, b, t3⟩ :=
      actualizarServo_move b t3 (⟨a, b, t1⟩ : ServoState) (by simpa using hba) (by simpa using hcd3)
    rw [h1, h2, h3]
    exact ⟨rfl, rfl, rfl⟩

/-- The servo scenario at concrete ticks: a move to 45° at tick 3000, a
request for 0° at tick 4000 changes only the desired angle, and the call
at tick 6000 applies it. -/
theorem servo_anti_chatter_witness :
    actualizarServo 45 3000 ⟨90, 90, 0⟩ = ⟨45, 45, 3000⟩ ∧
    actualizarServo 0 4000 (actualizarServo 45 3000 ⟨90, 90, 0⟩) = ⟨45, 0, 3000⟩ ∧
    actualizarServo 0 6000 (actualizarServo 0 4000 (actualizarServo 45 3000 ⟨90, 90, 0⟩)) =
      ⟨0, 0, 6000⟩ :=
  have h := servo_anti_chatter.2.2 45 0 3000 4000 6000 ⟨90, 90, 0⟩
    (by decide) (by decide) (by decide) (by decide) (by decide)
  ⟨h.1, h.2.1, h.2.2⟩

/-- Claim C9 is false for the alarm silence window: `loop` sets
`alarmSilenceUntil = millis() + 60000` (wrapping addition) and
`checkAlarm` tests `millis() < alarmSilenceUntil`, a direct less-than of
absolute timestamps. Dismissing the alarm at counter value
`U32 - 1000` makes the deadline wrap to 59000, so one millisecond later
(true elapsed time 1 ms, far less than 60 s) the guard already fails and
the alarm re-activates. -/
theorem timing_wrap_counterexample :
    (checkAlarm 0.75 4294966297 (dismissAlarm 4294966296 alarmActiveEx)).alarmActive = true ∧
    usub 4294966297 4294966296 = 1 ∧ (1 : Nat) < 60000 := by
  refine ⟨?_, by decide, by decide⟩
  norm_num [checkAlarm, dismissAlarm, stopAlarm, triggerAlarm, alarmActiveEx,
    PMV_ALARM_THRESHOLD, U32]

/-- Claim C9 amended: the four guards that are computed as the unsigned
subtraction `millis() - start >= duration` — the lockout duration in
`verificarDesbloqueo`, the servo cooldown in `actualizarServo`, the
alarm blink interval in `alarmHandler` and the low-indicator blink
interval in `pmvBajoHandler` — decide exactly the true elapsed time
against the duration even when the 32-bit projections of the two tick
readings wrap, as long as the true elapsed time is below `U32`; only the
alarm silence-window expiry deviates (see the counterexample). -/
theorem timing_wrap_amended (rStart rNow : Nat) (hle : rStart ≤ rNow)
    (hlt : rNow - rStart < U32) :
    (∀ s : SysState, s.sistemaBloqueado = true → s.tiempoBloqueo = rStart % U32 →
      ((verificarDesbloqueo s (rNow % U32)).sistemaBloqueado = false ↔
        DURACION_BLOQUEO ≤ rNow - rStart)) ∧
    (∀ (s : ServoState) (a : Int), a ≠ s.servoAnguloActual →
      s.ultimoCambioServo = rStart % U32 →
      ((actualizarServo a (rNow % U32) s).servoAnguloActual = a ↔
        SERVO_DELAY ≤ rNow - rStart)) ∧
    (∀ s : AlarmState, s.lastAlarmToggle = rStart % U32 →
      ((alarmHandler (rNow % U32) s).alarmToggleState ≠ s.alarmToggleState ↔
        alarmInterval ≤ rNow - rStart)) ∧
    (∀ p : PmvBajoState, p.lastPmvBajoToggle = rStart % U32 →
      ((pmvBajoHandler (rNow % U32) p).pmvBajoToggleState ≠ p.pmvBajoToggleState ↔
        (if p.pmvBajoToggleState then pmvBajoOnTime else pmvBajoOffTime) ≤ rNow - rStart)) := by
  have hw : usub (rNow % U32) (rStart % U32) = rNow - rStart := usub_wrap rNow rStart hle hlt
  refine ⟨?_, ?_, ?_, ?_⟩
  · intro s hb htb
    obtain ⟨i, b, tb, e, u⟩ := s
    have hb' : b = true := hb
    have htb' : tb = rStart % U32 := htb
    subst hb' htb'
    unfold verificarDesbloqueo
    by_cases hg : DURACION_BLOQUEO ≤ rNow - rStart <;> simp [hw, hg]
  · intro s a hne htb
    constructor
    · intro hmv
      by_contra hg
      have := (actualizarServo_no_move a (rNow % U32) s (Or.inr (by
        rw [htb, hw]
        exact not_le.mp hg))).1
      rw [hmv] at this
      exact hne this
    · intro hg
      have hm := actualizarServo_move a (rNow % U32) s hne (by rw [htb, hw]; exact hg)
      rw [hm]
  · intro s htb
    obtain ⟨a, si, u, t, l⟩ := s
    have htb' : l = rStart % U32 := htb
    subst htb'
    unfold alarmHandler
    by_cases hg : alarmInterval ≤ rNow - rStart <;> simp [hw, hg]
  · intro p htb
    obtain ⟨pa, pt, pl⟩ := p
    have htb' : pl = rStart % U32 := htb
    subst htb'
    unfold pmvBajoHandler
    cases pt
    · by_cases hg : pmvBajoOffTime ≤ rNow - rStart <;> simp [hw, hg]
    · by_cases hg : pmvBajoOnTime ≤ rNow - rStart <;> simp [hw, hg]

/-- The wraparound-correct guards exercised on the 32-bit projections of
start tick 0 and current tick 20000. -/
theorem timing_wrap_amended_witness :
    (verificarDesbloqueo ⟨0, true, 0, Estado.MENU, none⟩ (20000 % U32)).sistemaBloqueado =
      false ∧
    (alarmHandler (20000 % U32) ⟨true, false, 0, false, 0⟩).alarmToggleState ≠ false :=
  have h := timing_wrap_amended 0 20000 (by decide) (by decide)
  ⟨(h.1 ⟨0, true, 0, Estado.MENU, none⟩ rfl (by decide)).mpr (by decide),
   (h.2.2.1 ⟨true, false, 0, false, 0⟩ (by decide)).mpr (by decide)⟩

/-- Claim C10: provided the alarm invariant that a silenced alarm is not
ringing, after the per-tick checks `checkAlarm` and `checkPmvBajo` have
run on the tick's PMV, a ringing alarm implies the PMV exceeded 0.7 and
an active low indicator implies it was below -0.7; hence the two alert
machines are never simultaneously active. -/
theorem alerts_mutually_exclusive (pmv : ℚ) (nowA nowB : Nat)
    (s : AlarmState) (p : PmvBajoState)
    (hinv : s.alarmSilenced = true → s.alarmActive = false) :
    ((checkAlarm pmv nowA s).alarmActive = true → PMV_ALARM_THRESHOLD < pmv) ∧
    ((checkPmvBajo pmv nowB p).pmvBajoActive = true → pmv < PMV_BAJO_THRESHOLD) ∧
    ¬((checkAlarm pmv nowA s).alarmActive = true ∧
      (checkPmvBajo pmv nowB p).pmvBajoActive = true) := by
  obtain ⟨a, si, u, t, l⟩ := s
  obtain ⟨pa, pt, pl⟩ := p
  have hA : (checkAlarm pmv nowA ⟨a, si, u, t, l⟩).alarmActive = true →
      PMV_ALARM_THRESHOLD < pmv := by
    intro hact
    unfold checkAlarm at hact
    split_ifs at hact with h1 h2 h3 h4 <;>
      first
        | exact h2
        | simp_all [triggerAlarm, stopAlarm]
  have hB : (checkPmvBajo pmv nowB ⟨pa, pt, pl⟩).pmvBajoActive = true →
      pmv < PMV_BAJO_THRESHOLD := by
    intro hact
    unfold checkPmvBajo at hact
    split_ifs at hact with h1 h2 h3 <;>
      first
        | exact h1
        | simp_all [triggerPmvBajo, stopPmvBajo]
  refine ⟨hA, hB, fun hboth => ?_⟩
  have h1 := hA hboth.1
  have h2 := hB hboth.2
  rw [PMV_ALARM_THRESHOLD] at h1
  rw [PMV_BAJO_THRESHOLD] at h2
  linarith

/-- Mutual exclusion exercised at `pmv = 0.75` from idle alert states. -/
theorem alerts_mutually_exclusive_witness :
    ¬((checkAlarm 0.75 0 ⟨false, false, 0, false, 0⟩).alarmActive = true ∧
      (checkPmvBajo 0.75 0 ⟨false, false, 0⟩).pmvBajoActive = true) :=
  (alerts_mutually_exclusive 0.75 0 0 ⟨false, false, 0, false, 0⟩ ⟨false, false, 0⟩
    (fun _ => rfl)).2.2
